import Mathlib

/-!
Verification development for the `psy_data_gen` counseling-dialogue generator.

The definitions below are a shallow embedding of the repository's session
orchestration core: the keyword-driven risk scorer (`src/llm_agent/base.py`
and `src/agents/base.py`, whose `RiskAssessmentMixin` is identical in both
generations), the risk merger (`src/agents/flow_control.py`), the phase
transition validation (`src/llm_agent/flow_control.py`), the student affect
model (`src/llm_agent/student.py`), and the two session drivers
(`ConversationSession` in `src/main.py` and `SessionManager.run` in
`src/interactive_session.py`).

Python floats are modelled as rationals, Python strings as Lean strings,
Python `in` on strings as substring containment, dict/set values as lists
and finsets.  External LLM calls are modelled as oracle functions indexed by
round number; `random.choice` / `random.random` as explicitly passed values.
-/

/-! ## String primitives (Python `in` and `str.lower`) -/

/-- Boolean test that `needle` is a prefix of `haystack` (character lists). -/
def charListHasPre (needle haystack : List Char) : Bool :=
  match needle, haystack with
  | [], _ => true
  | _ :: _, [] => false
  | a :: as, b :: bs => a == b && charListHasPre as bs

/-- Boolean test that `needle` occurs contiguously inside `haystack`. -/
def charListHasSub (haystack needle : List Char) : Bool :=
  match haystack with
  | [] => needle.isEmpty
  | _ :: t => charListHasPre needle haystack || charListHasSub t needle

/-- Python's `needle in haystack` on strings: substring containment. -/
def strContains (haystack needle : String) : Bool :=
  charListHasSub haystack.data needle.data

/-- Python's `str.lower()`.  (ASCII case mapping; CJK characters, which all
the configured keywords consist of, are fixed points exactly as in Python.) -/
def pyLower (s : String) : String :=
  ⟨s.data.map Char.toLower⟩

/-! ## Configuration (`src/settings.py`, class `SystemConfig`) -/

/-- Keyword list `SystemConfig.SUICIDE_KEYWORDS`. -/
def SUICIDE_KEYWORDS : List String :=
  ["自杀", "结束生命", "不想活", "死了算了", "想死", "自我了断", "活着没意思",
   "消失", "离开这个世界", "解脱"]

/-- Keyword list `SystemConfig.SELF_HARM_KEYWORDS`. -/
def SELF_HARM_KEYWORDS : List String :=
  ["自残", "割腕", "伤害自己", "自我伤害", "切割", "撞墙", "拿刀", "疼痛",
   "流血", "划伤"]

/-- Keyword list `SystemConfig.HARM_OTHERS_KEYWORDS`. -/
def HARM_OTHERS_KEYWORDS : List String :=
  ["伤害别人", "报复", "杀死", "打击", "攻击", "暴力", "恨死", "弄死", "教训"]

/-- Configuration value `SystemConfig.RISK_THRESHOLD`. -/
def RISK_THRESHOLD : Nat := 3

/-- Configuration value `SystemConfig.MAX_CONVERSATION_ROUNDS`. -/
def MAX_CONVERSATION_ROUNDS : Nat := 50

/-! ## Deterministic risk scoring
(`RiskAssessmentMixin`, identical in `src/llm_agent/base.py` lines 314-401
and `src/agents/base.py` lines 525-613) -/

/-- Hard-coded list `high_risk_keywords` inside `_calculate_risk_level`. -/
def high_risk_keywords : List String :=
  ["自杀", "想死", "结束生命", "割腕", "杀死"]

/-- Keywords of `keywords` found in `content.lower()`
(the list `matched_keywords` inside `_calculate_risk_level`). -/
def matchedKeywords (content : String) (keywords : List String) : List String :=
  keywords.filter (fun kw => strContains (pyLower content) kw)

/-- Function `RiskAssessmentMixin._calculate_risk_level`.  The score is the
number of matched category keywords plus 2 for every `high_risk_keywords`
entry found in the (lower-cased) content — whether or not that entry belongs
to `keywords` — and is then mapped through the threshold ladder. -/
def calculate_risk_level (content : String) (keywords : List String) : Nat :=
  let matched := matchedKeywords content keywords
  if matched.isEmpty then 0
  else
    let bonus := (high_risk_keywords.filter
      (fun kw => strContains (pyLower content) kw)).length
    let risk_score := matched.length + 2 * bonus
    if risk_score ≥ 5 then 5
    else if risk_score ≥ 3 then 4
    else if risk_score ≥ 2 then 3
    else if risk_score ≥ 1 then 2
    else 1

/-- Model `RiskAssessment` from `src/models.py` (all integer fields are
declared with pydantic bounds 0 ≤ _ ≤ 5 there; `assess_risk` only ever
constructs in-range values, proved below). -/
structure RiskAssessment where
  suicide_risk : Nat
  self_harm_risk : Nat
  harm_others_risk : Nat
  overall_risk : Nat
  risk_indicators : List String
  emergency_required : Bool
deriving DecidableEq, Repr

/-- Value `RiskAssessment()` built from the pydantic field defaults. -/
def defaultRiskAssessment : RiskAssessment :=
  { suicide_risk := 0, self_harm_risk := 0, harm_others_risk := 0,
    overall_risk := 0, risk_indicators := [], emergency_required := false }

/-- Function `RiskAssessmentMixin.assess_risk`.  Note the indicators are
collected with `kw in content` on the original (not lower-cased) content,
deduplicated by `list(set(...))`, here `List.dedup`. -/
def assess_risk (content : String) : RiskAssessment :=
  let suicide_risk := calculate_risk_level content SUICIDE_KEYWORDS
  let self_harm_risk := calculate_risk_level content SELF_HARM_KEYWORDS
  let harm_others_risk := calculate_risk_level content HARM_OTHERS_KEYWORDS
  let overall_risk := max suicide_risk (max self_harm_risk harm_others_risk)
  let risk_indicators :=
    (if suicide_risk > 0 then
      SUICIDE_KEYWORDS.filter (fun kw => strContains content kw) else []) ++
    (if self_harm_risk > 0 then
      SELF_HARM_KEYWORDS.filter (fun kw => strContains content kw) else []) ++
    (if harm_others_risk > 0 then
      HARM_OTHERS_KEYWORDS.filter (fun kw => strContains content kw) else [])
  { suicide_risk := suicide_risk, self_harm_risk := self_harm_risk,
    harm_others_risk := harm_others_risk, overall_risk := overall_risk,
    risk_indicators := risk_indicators.dedup,
    emergency_required := overall_risk ≥ RISK_THRESHOLD }

/-- Per-category scorer exactly as claim C3 words it: the +2 bonus counts
only high-priority keywords **belonging to the category's own matched set**,
and the score is mapped by the claimed thresholds (score 0 ↦ 0). -/
def claimRiskLevel (content : String) (keywords : List String) : Nat :=
  let matched := matchedKeywords content keywords
  let score :=
    matched.length + 2 * (matched.filter (fun kw => kw ∈ high_risk_keywords)).length
  if score ≥ 5 then 5
  else if score ≥ 3 then 4
  else if score ≥ 2 then 3
  else if score ≥ 1 then 2
  else 0

/-- Per-category scorer as amended: like `claimRiskLevel`, but the bonus
counts the high-priority keywords contained anywhere in the lower-cased
text (regardless of the category), and the level is 0 exactly when no
category keyword matches — the bonus alone never yields a positive level. -/
def amendedRiskLevel (content : String) (keywords : List String) : Nat :=
  let matched := matchedKeywords content keywords
  if matched.isEmpty then 0
  else
    let score := matched.length +
      2 * (high_risk_keywords.filter
        (fun kw => strContains (pyLower content) kw)).length
    if score ≥ 5 then 5
    else if score ≥ 3 then 4
    else if score ≥ 2 then 3
    else 2

/-! ## Risk merging (`FlowControlAgent._merge_risk_assessments`,
`src/agents/flow_control.py` lines 303-341) -/

/-- Model of the `llm_risk` dict handed to `_merge_risk_assessments`: the
`risk_assessment` object parsed from the model's JSON by `_parse_response`,
which defaults missing numeric fields to 0 but performs no range check, so
the numeric fields are arbitrary integers. -/
structure LLMRisk where
  overall_risk_level : Int
  suicide_risk : Int
  self_harm_risk : Int
  harm_others_risk : Int
  risk_indicators : List String
  emergency_required : Bool
  risk_description : String
deriving DecidableEq, Repr

/-- Model of the merged risk dict returned by `_merge_risk_assessments`.
Its `risk_indicators` field is built by `list(set(a + b))`, whose element
order is unspecified in Python, so it is modelled as a `Finset`. -/
structure MergedRisk where
  overall_risk_level : Int
  suicide_risk : Int
  self_harm_risk : Int
  harm_others_risk : Int
  emergency_required : Bool
  risk_indicators : Finset String
  risk_description : String
deriving DecidableEq

/-- Join of two description strings: non-empty ones are kept and joined
with the separator `"; "` (`"; ".join(descriptions)` over the non-falsy
descriptions in `_merge_risk_assessments`). -/
def joinDescriptions (a b : String) : String :=
  if a = "" then b else if b = "" then a else a ++ "; " ++ b

/-- String `rule_desc` built inside `_merge_risk_assessments` from the
rule-based indicators. -/
def ruleRiskDescription (inds : List String) : String :=
  if inds.isEmpty then "" else "检测到风险关键词: " ++ String.intercalate ", " inds

/-- Function `FlowControlAgent._merge_risk_assessments`: field-wise max of
the numeric fields, disjunction of the emergency flags, union of the
indicator sets, and the two descriptions (the LLM's, and one synthesised
from the rule indicators) joined with empties dropped. -/
def merge_risk_assessments (llm : LLMRisk) (rule : RiskAssessment) : MergedRisk :=
  { overall_risk_level := max llm.overall_risk_level (rule.overall_risk : Int),
    suicide_risk := max llm.suicide_risk (rule.suicide_risk : Int),
    self_harm_risk := max llm.self_harm_risk (rule.self_harm_risk : Int),
    harm_others_risk := max llm.harm_others_risk (rule.harm_others_risk : Int),
    emergency_required := llm.emergency_required || rule.emergency_required,
    risk_indicators := (llm.risk_indicators ++ rule.risk_indicators).toFinset,
    risk_description :=
      joinDescriptions llm.risk_description (ruleRiskDescription rule.risk_indicators) }

/-- View of an `llm_risk` dict as a full risk vector. -/
def embedLLMRisk (llm : LLMRisk) : MergedRisk :=
  { overall_risk_level := llm.overall_risk_level,
    suicide_risk := llm.suicide_risk,
    self_harm_risk := llm.self_harm_risk,
    harm_others_risk := llm.harm_others_risk,
    emergency_required := llm.emergency_required,
    risk_indicators := llm.risk_indicators.toFinset,
    risk_description := llm.risk_description }

/-- View of a rule-based `RiskAssessment` as a full risk vector, with the
description `_merge_risk_assessments` synthesises for it. -/
def embedRuleRisk (rule : RiskAssessment) : MergedRisk :=
  { overall_risk_level := (rule.overall_risk : Int),
    suicide_risk := (rule.suicide_risk : Int),
    self_harm_risk := (rule.self_harm_risk : Int),
    harm_others_risk := (rule.harm_others_risk : Int),
    emergency_required := rule.emergency_required,
    risk_indicators := rule.risk_indicators.toFinset,
    risk_description := ruleRiskDescription rule.risk_indicators }

/-- Binary merge of two risk vectors: the field-wise operation performed by
`_merge_risk_assessments`, stated on a single vector type so that iterating
it (as the spec's `RiskMerger.merge`) can be expressed. -/
def mergeRisk (a b : MergedRisk) : MergedRisk :=
  { overall_risk_level := max a.overall_risk_level b.overall_risk_level,
    suicide_risk := max a.suicide_risk b.suicide_risk,
    self_harm_risk := max a.self_harm_risk b.self_harm_risk,
    harm_others_risk := max a.harm_others_risk b.harm_others_risk,
    emergency_required := a.emergency_required || b.emergency_required,
    risk_indicators := a.risk_indicators ∪ b.risk_indicators,
    risk_description := joinDescriptions a.risk_description b.risk_description }

/-- Risk vector with its description blanked, for equalities that hold in
every field except the (order-dependent) description. -/
def stripDescription (r : MergedRisk) : MergedRisk :=
  { r with risk_description := "" }

/-- Invariant claimed for risk vectors: the overall level is the maximum of
the three per-category levels and every numeric field lies in [0, 5]. -/
def mergedRiskInvariant (m : MergedRisk) : Prop :=
  m.overall_risk_level = max m.suicide_risk (max m.self_harm_risk m.harm_others_risk) ∧
  0 ≤ m.suicide_risk ∧ m.suicide_risk ≤ 5 ∧
  0 ≤ m.self_harm_risk ∧ m.self_harm_risk ≤ 5 ∧
  0 ≤ m.harm_others_risk ∧ m.harm_others_risk ≤ 5 ∧
  0 ≤ m.overall_risk_level ∧ m.overall_risk_level ≤ 5

/-- Same invariant read on a rule-based `RiskAssessment` (ℕ-valued). -/
def ruleRiskInvariant (r : RiskAssessment) : Prop :=
  r.overall_risk = max r.suicide_risk (max r.self_harm_risk r.harm_others_risk) ∧
  r.suicide_risk ≤ 5 ∧ r.self_harm_risk ≤ 5 ∧ r.harm_others_risk ≤ 5 ∧
  r.overall_risk ≤ 5

/-- Function `FlowControlAgent.should_terminate_session` applied to a merged
risk dict: emergency flag set, or overall level at the configured threshold. -/
def should_terminate_session (m : MergedRisk) : Bool :=
  m.emergency_required || ((RISK_THRESHOLD : Int) ≤ m.overall_risk_level)

/-! ## Phases and transition validation
(`CounselorState` in `src/models.py`; `STATE_TRANSITION_GRAPH` and
`FlowControlAgent._validate_state_transition` in
`src/llm_agent/flow_control.py`) -/

/-- Enum `CounselorState` from `src/models.py`. -/
inductive CounselorState where
  | introduction
  | exploration
  | assessment
  | scale_recommendation
deriving DecidableEq, Repr

/-- Dict `STATE_TRANSITION_GRAPH` from `src/llm_agent/flow_control.py`. -/
def STATE_TRANSITION_GRAPH : CounselorState → List CounselorState
  | .introduction => [.exploration]
  | .exploration => [.assessment]
  | .assessment => [.scale_recommendation]
  | .scale_recommendation => []

/-- String value of each `CounselorState` enum member. -/
def counselorStateValue : CounselorState → String
  | .introduction => "introduction"
  | .exploration => "exploration"
  | .assessment => "assessment"
  | .scale_recommendation => "scale_recommendation"

/-- Python's `CounselorState(s)` enum constructor: looks a member up by its
string **value** (the English strings above); any other string — including
the Chinese phase labels used by the flow-control result schema — raises
`ValueError`, modelled as `none`. -/
def counselorStateOfValue : String → Option CounselorState
  | "introduction" => some .introduction
  | "exploration" => some .exploration
  | "assessment" => some .assessment
  | "scale_recommendation" => some .scale_recommendation
  | _ => none

/-- Chinese phase labels admitted by the `StateTransition` pydantic schema's
`Literal` type in `src/llm_agent/flow_control.py`. -/
def phaseLabel : CounselorState → String
  | .introduction => "引入与建立关系阶段"
  | .exploration => "深入探索阶段"
  | .assessment => "评估诊断阶段"
  | .scale_recommendation => "量表推荐阶段"

/-- Model of the `state_transition` sub-dict of a flow-control result
(`StateTransition` in `src/llm_agent/flow_control.py`; `recommended_state`
is `None` or a string in the raw JSON). -/
structure StateTransitionData where
  need_transition : Bool
  current_state : String
  recommended_state : Option String
  transition_reason : String
  confidence_level : String
deriving DecidableEq, Repr

/-- Function `FlowControlAgent._validate_state_transition` (as run by
`clean_response_data` on the parsed JSON before pydantic validation).  When
either phase string is not an English `CounselorState` value the
`CounselorState(...)` call raises `ValueError`, which the function catches
and swallows, leaving the data unchanged. -/
def validate_state_transition (st : StateTransitionData) : StateTransitionData :=
  if !st.need_transition then st
  else
    match st.recommended_state with
    | none => st
    | some recStr =>
      if recStr = "" then st
      else
        match counselorStateOfValue st.current_state, counselorStateOfValue recStr with
        | some cur, some rec =>
          if rec ∈ STATE_TRANSITION_GRAPH cur then st
          else
            { st with
              need_transition := false,
              recommended_state := none,
              transition_reason :=
                "非法状态转换：" ++ st.current_state ++ " 不能直接转换到 " ++ recStr,
              confidence_level := "低" }
        | _, _ => st

/-- Transition handling in `SessionManager.run`
(`src/interactive_session.py` lines 372-408): no recommendation leaves the
phase alone; a `None` recommendation ends the session (`should_end`);
otherwise `CounselorState(recommended_state)` is applied unconditionally —
and raises `ValueError` (modelled as `Except.error`) when the string is not
an English enum value, which is the case for every string the pydantic
schema admits. -/
def runApplyTransition (cur : CounselorState) (st : StateTransitionData) :
    Except String (CounselorState × Bool) :=
  if !st.need_transition then .ok (cur, false)
  else
    match st.recommended_state with
    | none => .ok (cur, true)
    | some recStr =>
      match counselorStateOfValue recStr with
      | some ns => .ok (ns, false)
      | none => .error ("ValueError: " ++ recStr ++ " is not a valid CounselorState")

/-! ## Student affect model (`StudentBot`, `src/llm_agent/student.py`) -/

/-- List `trust_increase_indicators` in `_analyze_and_adjust_state`. -/
def trust_increase_indicators : List String :=
  ["理解", "感受", "不容易", "我能感受到", "听起来", "对你来说", "你的感受",
   "这很困难"]

/-- List `trust_decrease_indicators` in `_analyze_and_adjust_state`. -/
def trust_decrease_indicators : List String :=
  ["应该", "必须", "你需要", "建议你", "你要", "最好"]

/-- Keywords triggering the openness adjustment in
`_analyze_and_adjust_state`. -/
def openness_indicators : List String :=
  ["具体", "详细", "能说说", "比如"]

/-- Number of indicator keywords present in `content` (each counted once,
as the Python loop tests `if indicator in response_lower` per indicator). -/
def countPresent (indicators : List String) (content : String) : Nat :=
  (indicators.filter (fun kw => strContains content kw)).length

/-- Continuous behavioural state of the student bot (the attributes
`trust_level`, `openness_level`, `information_revealed`, `resistance_level`,
`avoidance_tendency` set in `StudentBot._init_config`).  Python floats are
modelled as rationals. -/
structure AffectState where
  trust_level : ℚ
  openness_level : ℚ
  information_revealed : ℚ
  resistance_level : ℚ
  avoidance_tendency : ℚ
deriving DecidableEq, Repr

/-- Function `StudentBot._analyze_and_adjust_state` (numeric part; the
emotion adjustment it also performs touches no numeric field). -/
def analyze_and_adjust_state (s : AffectState) (counselor_response : String) :
    AffectState :=
  let response_lower := pyLower counselor_response
  let trust_change : ℚ :=
    (5 / 100) * (countPresent trust_increase_indicators response_lower : ℚ) -
    (2 / 100) * (countPresent trust_decrease_indicators response_lower : ℚ)
  let trust' := max 0 (min 1 (s.trust_level + trust_change))
  let openness' :=
    if openness_indicators.any (fun kw => strContains response_lower kw) then
      min 1 (s.openness_level + 3 / 100)
    else s.openness_level
  let info' :=
    if trust' > 6 / 10 then min 1 (s.information_revealed + 1 / 10)
    else if trust' > 3 / 10 then min 1 (s.information_revealed + 5 / 100)
    else s.information_revealed
  { s with trust_level := trust', openness_level := openness',
           information_revealed := info' }

/-- Numeric part of a `StudentStateAnalysis`
(`src/llm_agent/flow_control.py`); the pydantic model constrains each of
these fields with `ge=0, le=1`. -/
structure StudentStateAnalysis where
  trust_level : ℚ
  openness_level : ℚ
  information_revealed : ℚ
  resistance_level : ℚ
  avoidance_tendency : ℚ
deriving DecidableEq, Repr

/-- Bounds `ge=0, le=1` that the pydantic schema enforces on every numeric
field of a `StudentStateAnalysis`. -/
def analysisInBounds (a : StudentStateAnalysis) : Prop :=
  0 ≤ a.trust_level ∧ a.trust_level ≤ 1 ∧
  0 ≤ a.openness_level ∧ a.openness_level ≤ 1 ∧
  0 ≤ a.information_revealed ∧ a.information_revealed ≤ 1 ∧
  0 ≤ a.resistance_level ∧ a.resistance_level ≤ 1 ∧
  0 ≤ a.avoidance_tendency ∧ a.avoidance_tendency ≤ 1

/-- Function `FlowControlAgent.update_student_bot_state` (numeric part): the
five affect fields are overwritten with the analysis values. -/
def update_student_bot_state (a : StudentStateAnalysis) (_s : AffectState) :
    AffectState :=
  { trust_level := a.trust_level, openness_level := a.openness_level,
    information_revealed := a.information_revealed,
    resistance_level := a.resistance_level,
    avoidance_tendency := a.avoidance_tendency }

/-- One per-round write to the student's affect state: either the analysis
of a counselor utterance (`_analyze_and_adjust_state`) or a flow-control
state write (`update_student_bot_state`). -/
inductive AffectUpdate where
  | analyze (counselor_response : String)
  | flowWrite (a : StudentStateAnalysis)

/-- Application of one affect update. -/
def applyAffectUpdate (s : AffectState) : AffectUpdate → AffectState
  | .analyze text => analyze_and_adjust_state s text
  | .flowWrite a => update_student_bot_state a s

/-- Validity of an update: a flow-control write carries values the pydantic
schema has already bounds-checked. -/
def validAffectUpdate : AffectUpdate → Prop
  | .analyze _ => True
  | .flowWrite a => analysisInBounds a

/-- Predicate that every affect field lies in [0, 1]. -/
def affectInBounds (s : AffectState) : Prop :=
  0 ≤ s.trust_level ∧ s.trust_level ≤ 1 ∧
  0 ≤ s.openness_level ∧ s.openness_level ≤ 1 ∧
  0 ≤ s.information_revealed ∧ s.information_revealed ≤ 1 ∧
  0 ≤ s.resistance_level ∧ s.resistance_level ≤ 1 ∧
  0 ≤ s.avoidance_tendency ∧ s.avoidance_tendency ≤ 1

/-! ## Student response generation
(`StudentBot.generate_student_response`, `src/llm_agent/student.py`
lines 197-240, and `_generate_safer_response`, lines 327-336) -/

/-- List `safe_responses` in `StudentBot._generate_safer_response`. -/
def safe_responses : List String :=
  ["我...我只是有时候会这样想，可能不是什么大问题。",
   "嗯，我觉得我需要时间想想。",
   "可能我说得有点过了，其实也没那么严重。",
   "我不太确定该怎么表达，就是感觉很难受。"]

/-- Risk-gated tail of `StudentBot.generate_student_response`: `generated`
is the utterance returned by the LLM call, `choice` models the
`random.choice` pick among the four safe fallbacks.  If the bot's own
`assess_risk` flags the generated utterance as requiring emergency
intervention, a fallback is returned instead. -/
def generate_student_response (generated : String) (choice : Nat) : String :=
  if (assess_risk generated).emergency_required then
    safe_responses.getD (choice % safe_responses.length) ""
  else generated

/-! ## Streamlit session driver (`ConversationSession`, `src/main.py`) -/

/-- Entry of `conversation_history` (`ConversationMessage` in
`src/models.py`, restricted to the fields the control flow reads). -/
structure ConversationMsg where
  role : String
  content : String
  round_number : Nat
deriving DecidableEq, Repr

/-- Model of the `state_transition` dict consumed by the older
`FlowControlAgent.get_state_transition_recommendation`
(`src/agents/flow_control.py` lines 351-370). -/
structure OldStateTransition where
  need_transition : Bool
  recommended_state : String
  transition_reason : String
deriving DecidableEq, Repr

/-- Function `FlowControlAgent.get_state_transition_recommendation`: `None`
unless a transition is recommended; the recommended state string is looked
up in `state_mapping` (the English enum values), unknown strings giving
`None`.  No graph validation is performed here. -/
def get_state_transition_recommendation (st : OldStateTransition) :
    Option CounselorState :=
  if !st.need_transition then none
  else counselorStateOfValue st.recommended_state

/-- Function `FlowControlAgent._rule_based_risk_assessment`: the contents of
the student messages among the last five history entries, joined with
blanks, fed to `assess_risk`; an empty history yields the default
`RiskAssessment()`. -/
def rule_based_risk_assessment (history : List ConversationMsg) : RiskAssessment :=
  if history.isEmpty then defaultRiskAssessment
  else
    let recent := history.drop (history.length - 5)
    let contents := (recent.filter (fun m => m.role == "student")).map (·.content)
    assess_risk (String.intercalate " " contents)

/-- One result of the older `FlowControlAgent.execute`: the parts of the
parsed evaluation dict that `continue_conversation` consumes. -/
structure MainEval where
  state_transition : OldStateTransition
  risk : LLMRisk
deriving Repr

/-- External calls made during a Streamlit session, modelled as functions of
the round number: the student bot's returned utterance, the LLM half of the
round evaluation, and the counselor bot's returned utterance. -/
structure MainOracle where
  student : Nat → String
  evalLLM : Nat → MainEval
  counselor : Nat → String

/-- Mutable state of a `ConversationSession` (`src/main.py` lines 42-59)
that `continue_conversation` touches, plus the student bot's affect state. -/
structure SessionState where
  conversation_history : List ConversationMsg
  current_round : Nat
  is_completed : Bool
  risk_alert : Bool
  counselor_state : CounselorState
  student_affect : AffectState
deriving DecidableEq, Repr

/-- Observable external call, used to state "no utterance-producing call
occurs afterward": an utterance request to the student or counselor bot, or
a round-evaluation request. -/
inductive CallEvent where
  | studentCall (round : Nat)
  | evalCall (round : Nat)
  | counselorCall (round : Nat)
deriving DecidableEq, Repr

/-- Last counselor message content in the history (the student bot scans the
history backwards for it before adjusting its state). -/
def lastCounselorContent (history : List ConversationMsg) : Option String :=
  ((history.reverse).find? (fun m => m.role == "counselor")).map (·.content)

/-- Affect adjustment performed inside the student bot's response call: the
analysis of the last counselor message, if any.  (`src/main.py` uses
`agents/student.py`, which is absent from the source tree; its adjustment is
modelled by the present newer generation `llm_agent/student.py`,
`_analyze_and_adjust_state`.) -/
def studentAffectStep (history : List ConversationMsg) (s : AffectState) :
    AffectState :=
  match lastCounselorContent history with
  | some text => analyze_and_adjust_state s text
  | none => s

/-- Student message appended by the round `continue_conversation` would run
from state `s`. -/
def roundStudentMsg (o : MainOracle) (s : SessionState) : ConversationMsg :=
  ⟨"student", o.student (s.current_round + 1), s.current_round + 1⟩

/-- Merged risk vector of the round `continue_conversation` would run from
state `s`: the LLM evaluation's risk merged (by `evaluate_round`, via
`_merge_risk_assessments`) with the rule-based assessment of the history
including the new student message. -/
def mergedRiskAt (o : MainOracle) (s : SessionState) : MergedRisk :=
  merge_risk_assessments (o.evalLLM (s.current_round + 1)).risk
    (rule_based_risk_assessment (s.conversation_history ++ [roundStudentMsg o s]))

/-- Method `ConversationSession.continue_conversation` (`src/main.py` lines
118-188): guard on a finished or risk-flagged session, guard on the round
cap, then student utterance, round evaluation (LLM result merged with the
rule-based assessment by `evaluate_round`), risk check, optional phase
transition, counselor utterance.  Returns the student response (`None` when
no new round is produced), the new session state, and the external calls
made. -/
def continue_conversation (o : MainOracle) (s : SessionState) :
    Option String × SessionState × List CallEvent :=
  if s.is_completed || s.risk_alert then (none, s, [])
  else if MAX_CONVERSATION_ROUNDS ≤ s.current_round then
    (none, { s with is_completed := true }, [])
  else
    let r := s.current_round + 1
    let resp := o.student r
    let affect' := studentAffectStep s.conversation_history s.student_affect
    let hist' := s.conversation_history ++ [roundStudentMsg o s]
    let s1 := { s with current_round := r, conversation_history := hist',
                       student_affect := affect' }
    let ev := o.evalLLM r
    let merged := mergedRiskAt o s
    if should_terminate_session merged then
      (some resp, { s1 with risk_alert := true },
       [.studentCall r, .evalCall r])
    else
      let s2 :=
        match get_state_transition_recommendation ev.state_transition with
        | some ns => { s1 with counselor_state := ns }
        | none => s1
      let cresp := o.counselor r
      (some resp,
       { s2 with conversation_history :=
           s2.conversation_history ++ [⟨"counselor", cresp, r⟩] },
       [.studentCall r, .evalCall r, .counselorCall r])

/-- Repeated `continue_conversation` calls, as issued by the auto-run loop
in `src/main.py`, collecting the external calls of every iteration. -/
def runMain (o : MainOracle) : Nat → SessionState → SessionState × List CallEvent
  | 0, s => (s, [])
  | n + 1, s =>
    let step := continue_conversation o s
    let rest := runMain o n step.2.1
    (rest.1, step.2.2 ++ rest.2)

/-- Field `completion_reason` of the metadata built by
`ConversationSession.finalize_conversation` (`src/main.py` lines 216-231). -/
def finalize_completion_reason (s : SessionState) : String :=
  if s.risk_alert then "risk_alert" else "normal_completion"

/-! ## Interactive session driver (`SessionManager.run`,
`src/interactive_session.py` lines 300-471, auto mode) -/

/-- Risk section of a new-generation flow-control result (`RiskAssessment`
in `src/llm_agent/flow_control.py`; pydantic bounds each level to 0..5). -/
structure NewRiskAssessment where
  overall_risk_level : Nat
  suicide_risk : Nat
  self_harm_risk : Nat
  harm_others_risk : Nat
  risk_indicators : List String
  emergency_required : Bool
  risk_description : String
deriving DecidableEq, Repr

/-- Parts of a `FlowControlResult` that `SessionManager.run` consumes. -/
structure FlowResult where
  state_transition : StateTransitionData
  risk_assessment : NewRiskAssessment
deriving Repr

/-- External calls of an interactive session: counselor chat, flow-control
evaluation, student chat, indexed by round. -/
structure InteractiveOracle where
  counselor : Nat → String
  flowResult : Nat → FlowResult
  student : Nat → String

/-- Loop body of `SessionManager.run` in auto mode, producing the external
calls in order.  Each iteration issues the counselor chat and flow-control
evaluation for round `r`, runs the recommended transition through
`clean_response_data`'s validation and then applies it the way `run` does
(which can raise `ValueError`, modelled as `Except.error`), and then either
stops (`should_end`, or the auto-mode round cap) or issues the next round's
student chat and loops.  Note that `run` never consults
`flowResult.risk_assessment` for termination.  The student-state
bookkeeping the loop also performs does not influence the control flow and
is omitted; `fuel` is an upper bound on the number of iterations, strictly
larger than `maxRounds` in every use below. -/
def interactive_loop (o : InteractiveOracle) (maxRounds : Nat) :
    Nat → Nat → CounselorState → Except String (List CallEvent)
  | 0, _, _ => .ok []
  | fuel + 1, r, cur =>
    let head := [CallEvent.counselorCall r, CallEvent.evalCall r]
    let st := validate_state_transition (o.flowResult r).state_transition
    match runApplyTransition cur st with
    | .error e => .error e
    | .ok (cur', shouldEnd) =>
      if shouldEnd then .ok head
      else if maxRounds ≤ r then .ok head
      else
        match interactive_loop o maxRounds fuel (r + 1) cur' with
        | .error e => .error e
        | .ok rest => .ok (head ++ [.studentCall (r + 1)] ++ rest)

/-! ## Invariant on the LLM-supplied risk dict, and concrete fixtures -/

/-- Invariant of claim C4 read on an `llm_risk` dict. -/
def llmRiskInvariant (llm : LLMRisk) : Prop :=
  llm.overall_risk_level =
    max llm.suicide_risk (max llm.self_harm_risk llm.harm_others_risk) ∧
  0 ≤ llm.suicide_risk ∧ llm.suicide_risk ≤ 5 ∧
  0 ≤ llm.self_harm_risk ∧ llm.self_harm_risk ≤ 5 ∧
  0 ≤ llm.harm_others_risk ∧ llm.harm_others_risk ≤ 5 ∧
  0 ≤ llm.overall_risk_level ∧ llm.overall_risk_level ≤ 5

/-- An all-quiet LLM risk dict (every level 0, no emergency). -/
def zeroLLMRisk : LLMRisk :=
  { overall_risk_level := 0, suicide_risk := 0, self_harm_risk := 0,
    harm_others_risk := 0, risk_indicators := [], emergency_required := false,
    risk_description := "" }

/-- An LLM risk dict whose fields all lie in [0, 5] but whose overall level
is not the maximum of the per-category levels: a response the parsing layer
(`_parse_response`) accepts unchanged. -/
def skewedLLMRisk : LLMRisk :=
  { zeroLLMRisk with suicide_risk := 5 }

/-- An LLM risk dict flagging an emergency. -/
def emergencyLLMRisk : LLMRisk :=
  { overall_risk_level := 5, suicide_risk := 5, self_harm_risk := 0,
    harm_others_risk := 0, risk_indicators := ["自杀"],
    emergency_required := true, risk_description := "高风险" }

/-- Old-generation transition dict recommending nothing. -/
def quietOldTransition : OldStateTransition :=
  { need_transition := false, recommended_state := "", transition_reason := "" }

/-- Streamlit-session oracle whose evaluator never recommends a transition
and never reports risk, with keyword-free utterances. -/
def quietMainOracle : MainOracle :=
  { student := fun _ => "好的",
    evalLLM := fun _ => ⟨quietOldTransition, zeroLLMRisk⟩,
    counselor := fun _ => "嗯" }

/-- Streamlit-session oracle whose evaluator reports an emergency from the
first evaluated round on. -/
def emergencyMainOracle : MainOracle :=
  { student := fun _ => "好的",
    evalLLM := fun _ => ⟨quietOldTransition, emergencyLLMRisk⟩,
    counselor := fun _ => "嗯" }

/-- Initial affect values set by `StudentBot._init_config` (`trust 0.1`,
`openness 0.2`, `information 0.1`; the two random draws fixed inside their
documented ranges). -/
def initialAffect : AffectState :=
  { trust_level := 1 / 10, openness_level := 2 / 10,
    information_revealed := 1 / 10, resistance_level := 2 / 5,
    avoidance_tendency := 1 / 2 }

/-- Session state right after `start_conversation`: the student's opening
question and the counselor's first reply, both round 1. -/
def startedSession : SessionState :=
  { conversation_history :=
      [⟨"student", "我最近学习压力很大", 1⟩, ⟨"counselor", "你好，愿意说说吗", 1⟩],
    current_round := 1, is_completed := false, risk_alert := false,
    counselor_state := .introduction, student_affect := initialAffect }

/-- A session already flagged by the risk monitor. -/
def alertedSession : SessionState :=
  { startedSession with risk_alert := true }

/-- A session already marked complete. -/
def completedSession : SessionState :=
  { startedSession with is_completed := true }

/-- New-generation risk section reporting nothing. -/
def quietNewRisk : NewRiskAssessment :=
  { overall_risk_level := 0, suicide_risk := 0, self_harm_risk := 0,
    harm_others_risk := 0, risk_indicators := [], emergency_required := false,
    risk_description := "" }

/-- New-generation risk section flagging an emergency. -/
def emergencyNewRisk : NewRiskAssessment :=
  { overall_risk_level := 5, suicide_risk := 5, self_harm_risk := 0,
    harm_others_risk := 0, risk_indicators := ["自杀"],
    emergency_required := true, risk_description := "高风险" }

/-- Transition section recommending no transition, in the schema's Chinese
labels. -/
def quietTransitionData : StateTransitionData :=
  { need_transition := false, current_state := "引入与建立关系阶段",
    recommended_state := none, transition_reason := "当前阶段尚未完成",
    confidence_level := "中" }

/-- Transition section recommending the illegal back-edge assessment →
introduction, in the Chinese labels that the pydantic `Literal` schema
admits (the only strings a schema-valid response can carry). -/
def chineseIllegalTransition : StateTransitionData :=
  { need_transition := true, current_state := "评估诊断阶段",
    recommended_state := some "引入与建立关系阶段",
    transition_reason := "回到建立关系", confidence_level := "高" }

/-- The same illegal back-edge written with the English enum values (which
the schema does not admit, but which are the only strings
`_validate_state_transition` can parse). -/
def englishIllegalTransition : StateTransitionData :=
  { need_transition := true, current_state := "assessment",
    recommended_state := some "introduction",
    transition_reason := "回到建立关系", confidence_level := "高" }

/-- Interactive-session oracle whose flow-control result reports an
emergency every round and never recommends a transition. -/
def interactiveEmergencyOracle : InteractiveOracle :=
  { counselor := fun _ => "嗯",
    flowResult := fun _ => ⟨quietTransitionData, emergencyNewRisk⟩,
    student := fun _ => "好" }

/-- Interactive-session oracle whose flow-control result recommends the
illegal Chinese-labelled back-edge in round 1. -/
def illegalTransitionOracle : InteractiveOracle :=
  { counselor := fun _ => "嗯",
    flowResult := fun _ => ⟨chineseIllegalTransition, quietNewRisk⟩,
    student := fun _ => "好" }

/-- A risk vector carrying a non-empty description. -/
def descRiskA : MergedRisk :=
  { overall_risk_level := 1, suicide_risk := 1, self_harm_risk := 0,
    harm_others_risk := 0, emergency_required := false, risk_indicators := ∅,
    risk_description := "甲方描述" }

/-- Another risk vector carrying a different non-empty description. -/
def descRiskB : MergedRisk :=
  { overall_risk_level := 2, suicide_risk := 0, self_harm_risk := 2,
    harm_others_risk := 0, emergency_required := false, risk_indicators := ∅,
    risk_description := "乙方描述" }

/-- A flow-control analysis with every numeric field at 0.5. -/
def sampleAnalysis : StudentStateAnalysis :=
  { trust_level := 1 / 2, openness_level := 1 / 2,
    information_revealed := 1 / 2, resistance_level := 1 / 2,
    avoidance_tendency := 1 / 2 }

/-- A short sequence of affect updates: one counselor-utterance analysis
followed by one flow-control write. -/
def sampleUpdates : List AffectUpdate :=
  [.analyze "我能理解你的感受", .flowWrite sampleAnalysis]

/-! ## Helper lemmas -/

/-- Non-empty match lists have positive length. -/
theorem matched_length_pos {content : String} {keywords : List String}
    (h : (matchedKeywords content keywords).isEmpty = false) :
    1 ≤ (matchedKeywords content keywords).length := by
  have hne : matchedKeywords content keywords ≠ [] := by
    intro hnil
    rw [hnil] at h
    simp at h
  exact List.length_pos.mpr hne

/-- The per-category level never exceeds 5. -/
theorem calculate_risk_level_le_five (content : String) (keywords : List String) :
    calculate_risk_level content keywords ≤ 5 := by
  simp only [calculate_risk_level]
  split_ifs <;> omega

/-- String concatenation is empty exactly when both parts are. -/
theorem strAppendEqEmpty (s t : String) : s ++ t = "" ↔ s = "" ∧ t = "" := by
  constructor
  · intro h
    have hd : (s ++ t).data = ("" : String).data := congrArg String.data h
    rw [String.data_append] at hd
    have hd' : s.data = [] ∧ t.data = [] := List.append_eq_nil.mp hd
    exact ⟨String.ext hd'.1, String.ext hd'.2⟩
  · rintro ⟨rfl, rfl⟩
    rfl

/-- String concatenation is associative. -/
theorem strAppendAssoc (a b c : String) : a ++ b ++ c = a ++ (b ++ c) :=
  String.ext (by simp [String.data_append])

/-- The description join is associative. -/
theorem joinDescriptions_assoc (a b c : String) :
    joinDescriptions (joinDescriptions a b) c =
      joinDescriptions a (joinDescriptions b c) := by
  have hne : ∀ s t : String, s ≠ "" → s ++ ("; " ++ t) ≠ "" := by
    intro s t hs h
    exact hs ((strAppendEqEmpty s ("; " ++ t)).mp h).1
  unfold joinDescriptions
  by_cases ha : a = "" <;> by_cases hb : b = "" <;> by_cases hc : c = ""
  · simp [ha, hb, hc]
  · simp [ha, hb, hc]
  · simp [ha, hb, hc]
  · simp [ha, hb, hc]
  · simp [ha, hb, hc]
  · simp [ha, hb, hc]
  · simp only [ha, hb, hc, if_false, if_true]
    rw [strAppendAssoc, if_neg (hne a b ha)]
  · simp [ha, hb, hc, hne a b ha, hne b c hb, strAppendAssoc]

/-! ## Claim theorems -/

/-- C3 counterexample: on the text "自残自杀" the self-harm category matches
only "自残", which is not high-priority, so the claimed formula yields score
1 and level 2 — but the code also adds the +2 bonus for the suicide-category
high-priority keyword "自杀" found in the text, yielding score 3 and level
4. -/
theorem c3_calculate_risk_level_counterexample :
    calculate_risk_level "自残自杀" SELF_HARM_KEYWORDS = 4 ∧
    claimRiskLevel "自残自杀" SELF_HARM_KEYWORDS = 2 ∧
    calculate_risk_level "自残自杀" SELF_HARM_KEYWORDS ≠
      claimRiskLevel "自残自杀" SELF_HARM_KEYWORDS := by
  refine ⟨by decide, by decide, by decide⟩

/-- C3 (amended): for every text and keyword list, the per-category risk
level is the claimed step function of `score = |matched| + 2 × |high-priority
keywords contained in the text|` — the +2 bonus counts every
`high_risk_keywords` entry found anywhere in the (lower-cased) text, not
only those in the category's own matched set — with the level 0 exactly when
no category keyword matches. -/
theorem c3_calculate_risk_level_amended (content : String) (keywords : List String) :
    calculate_risk_level content keywords = amendedRiskLevel content keywords := by
  unfold calculate_risk_level amendedRiskLevel
  cases h : (matchedKeywords content keywords).isEmpty
  · have hlen := matched_length_pos h
    simp only [h, Bool.false_eq_true, if_false]
    split_ifs <;> omega
  · simp [h]

/-- C9: the per-category scorer returns only values in {0, 2, 3, 4, 5},
never 1; it returns 0 exactly on keyword-free content, and any match forces
a level of at least 2. -/
theorem c9_risk_level_range (content : String) (keywords : List String) :
    calculate_risk_level content keywords ∈ ([0, 2, 3, 4, 5] : List Nat) ∧
    calculate_risk_level content keywords ≠ 1 ∧
    ((matchedKeywords content keywords).isEmpty = true →
      calculate_risk_level content keywords = 0) ∧
    ((matchedKeywords content keywords).isEmpty = false →
      2 ≤ calculate_risk_level content keywords) := by
  refine ⟨?_, ?_, ?_, ?_⟩
  · unfold calculate_risk_level
    cases h : (matchedKeywords content keywords).isEmpty
    · have hlen := matched_length_pos h
      simp only [h, Bool.false_eq_true, if_false]
      split_ifs <;> first | decide | omega
    · simp [h]
  · unfold calculate_risk_level
    cases h : (matchedKeywords content keywords).isEmpty
    · have hlen := matched_length_pos h
      simp only [h, Bool.false_eq_true, if_false]
      split_ifs <;> omega
    · simp [h]
  · intro h
    unfold calculate_risk_level
    simp [h]
  · intro h
    have hlen := matched_length_pos h
    unfold calculate_risk_level
    simp only [h, Bool.false_eq_true, if_false]
    split_ifs <;> omega

/-- C9 witness: keyword-free content scores 0; the single match "自杀"
(with its own high-priority bonus) scores at least 2. -/
theorem c9_risk_level_range_witness :
    calculate_risk_level "你好" SUICIDE_KEYWORDS = 0 ∧
    2 ≤ calculate_risk_level "我想自杀" SUICIDE_KEYWORDS :=
  ⟨(c9_risk_level_range "你好" SUICIDE_KEYWORDS).2.2.1 (by decide),
   (c9_risk_level_range "我想自杀" SUICIDE_KEYWORDS).2.2.2 (by decide)⟩

/-- C4 counterexample: `_merge_risk_assessments` applied to a parse-accepted
LLM risk dict with overall level 0 but suicide level 5 (and the default
rule-based assessment) produces a vector whose overall level is not the
maximum of its per-category levels. -/
theorem c4_merged_invariant_counterexample :
    (merge_risk_assessments skewedLLMRisk defaultRiskAssessment).overall_risk_level = 0 ∧
    (merge_risk_assessments skewedLLMRisk defaultRiskAssessment).suicide_risk = 5 ∧
    ¬ mergedRiskInvariant (merge_risk_assessments skewedLLMRisk defaultRiskAssessment) := by
  refine ⟨by decide, by decide, ?_⟩
  intro h
  have h1 := h.1
  revert h1
  decide

/-- C4 (amended): every vector produced by `assess_risk` satisfies
`overall == max(suicide, selfHarm, harmOthers)` with all levels in [0, 5];
and `_merge_risk_assessments` **preserves** that invariant — its output
satisfies it whenever the LLM-supplied input does (the rule-based input
always does).  The merge does not establish the invariant on its own, as
the counterexample shows. -/
theorem c4_risk_invariant_amended :
    (∀ content : String, ruleRiskInvariant (assess_risk content)) ∧
    (∀ (llm : LLMRisk) (rule : RiskAssessment),
      llmRiskInvariant llm → ruleRiskInvariant rule →
      mergedRiskInvariant (merge_risk_assessments llm rule)) := by
  constructor
  · intro content
    refine ⟨rfl, ?_, ?_, ?_, ?_⟩
    · exact calculate_risk_level_le_five content SUICIDE_KEYWORDS
    · exact calculate_risk_level_le_five content SELF_HARM_KEYWORDS
    · exact calculate_risk_level_le_five content HARM_OTHERS_KEYWORDS
    · exact max_le (calculate_risk_level_le_five content SUICIDE_KEYWORDS)
        (max_le (calculate_risk_level_le_five content SELF_HARM_KEYWORDS)
          (calculate_risk_level_le_five content HARM_OTHERS_KEYWORDS))
  · intro llm rule hl hr
    obtain ⟨hl1, hl2, hl3, hl4, hl5, hl6, hl7, hl8, hl9⟩ := hl
    obtain ⟨hr1, hr2, hr3, hr4, hr5⟩ := hr
    simp only [mergedRiskInvariant, merge_risk_assessments]
    omega

/-- C4 witness: the invariant-preservation part applied to an in-range,
invariant-satisfying LLM risk dict and the default rule assessment. -/
theorem c4_risk_invariant_amended_witness :
    ruleRiskInvariant (assess_risk "我想自杀") ∧
    mergedRiskInvariant (merge_risk_assessments emergencyLLMRisk defaultRiskAssessment) :=
  ⟨c4_risk_invariant_amended.1 "我想自杀",
   c4_risk_invariant_amended.2 emergencyLLMRisk defaultRiskAssessment
     (by unfold llmRiskInvariant; decide) (by unfold ruleRiskInvariant; decide)⟩

/-- C5 counterexample: `merge` is not commutative — two risk vectors with
distinct non-empty descriptions merge to "甲方描述; 乙方描述" in one order
and "乙方描述; 甲方描述" in the other. -/
theorem c5_merge_not_commutative :
    mergeRisk descRiskA descRiskB ≠ mergeRisk descRiskB descRiskA ∧
    (mergeRisk descRiskA descRiskB).risk_description = "甲方描述; 乙方描述" ∧
    (mergeRisk descRiskB descRiskA).risk_description = "乙方描述; 甲方描述" := by
  refine ⟨?_, by decide, by decide⟩
  intro h
  have hd := congrArg MergedRisk.risk_description h
  revert hd
  decide

/-- C5 (amended): `_merge_risk_assessments` is the field-wise join
`mergeRisk` of its two inputs viewed as risk vectors; `mergeRisk` takes the
maximum of each numeric field, the union of the indicator sets, the
disjunction of the emergency flags, and joins descriptions dropping
empties; it is associative, and commutative in every field **except** the
description, which is concatenated in argument order — so it is commutative
exactly up to description, and fully commutative when either description is
empty. -/
theorem c5_merge_join_amended :
    (∀ (llm : LLMRisk) (rule : RiskAssessment),
      merge_risk_assessments llm rule =
        mergeRisk (embedLLMRisk llm) (embedRuleRisk rule)) ∧
    (∀ a b c : MergedRisk,
      mergeRisk (mergeRisk a b) c = mergeRisk a (mergeRisk b c)) ∧
    (∀ a b : MergedRisk,
      stripDescription (mergeRisk a b) = stripDescription (mergeRisk b a)) ∧
    (∀ a b : MergedRisk, a.risk_description = "" ∨ b.risk_description = "" →
      mergeRisk a b = mergeRisk b a) := by
  refine ⟨?_, ?_, ?_, ?_⟩
  · intro llm rule
    simp only [merge_risk_assessments, mergeRisk, embedLLMRisk, embedRuleRisk,
      List.toFinset_append]
  · intro a b c
    simp only [mergeRisk, MergedRisk.mk.injEq]
    exact ⟨max_assoc _ _ _, max_assoc _ _ _, max_assoc _ _ _, max_assoc _ _ _,
      Bool.or_assoc _ _ _, Finset.union_assoc _ _ _, joinDescriptions_assoc _ _ _⟩
  · intro a b
    simp only [mergeRisk, stripDescription, MergedRisk.mk.injEq]
    exact ⟨max_comm _ _, max_comm _ _, max_comm _ _, max_comm _ _,
      Bool.or_comm _ _, Finset.union_comm _ _, trivial⟩
  · intro a b h
    simp only [mergeRisk, MergedRisk.mk.injEq]
    refine ⟨max_comm _ _, max_comm _ _, max_comm _ _, max_comm _ _,
      Bool.or_comm _ _, Finset.union_comm _ _, ?_⟩
    rcases h with h | h
    · by_cases hb : b.risk_description = "" <;> simp [joinDescriptions, h, hb]
    · by_cases ha : a.risk_description = "" <;> simp [joinDescriptions, h, ha]

/-- C5 witness: the empty-description commutativity applied to a vector
with a blank description. -/
theorem c5_merge_join_amended_witness :
    mergeRisk (stripDescription descRiskA) descRiskB =
      mergeRisk descRiskB (stripDescription descRiskA) :=
  c5_merge_join_amended.2.2.2 (stripDescription descRiskA) descRiskB
    (Or.inl (by decide))

/-- Analysing a counselor utterance keeps every affect field in [0, 1]:
trust is clamped on both sides, and the openness / information increments
are non-negative and clamped above. -/
theorem analyze_preserves_bounds (s : AffectState) (text : String)
    (h : affectInBounds s) :
    affectInBounds (analyze_and_adjust_state s text) := by
  obtain ⟨h1, h2, h3, h4, h5, h6, h7, h8, h9, h10⟩ := h
  unfold analyze_and_adjust_state affectInBounds
  dsimp only
  refine ⟨le_max_left 0 _, max_le zero_le_one (min_le_left _ _),
    ?_, ?_, ?_, ?_, h7, h8, h9, h10⟩
  · split_ifs
    · exact le_min zero_le_one (by linarith)
    · exact h3
  · split_ifs
    · exact min_le_left _ _
    · exact h4
  · split_ifs
    · exact le_min zero_le_one (by linarith)
    · exact le_min zero_le_one (by linarith)
    · exact h5
  · split_ifs
    · exact min_le_left _ _
    · exact min_le_left _ _
    · exact h6

/-- A bounds-checked flow-control write lands in [0, 1]. -/
theorem flow_write_bounds (a : StudentStateAnalysis) (s : AffectState)
    (ha : analysisInBounds a) :
    affectInBounds (update_student_bot_state a s) := by
  unfold update_student_bot_state affectInBounds
  unfold analysisInBounds at ha
  exact ha

/-- C6: from any affect state within [0, 1], after an arbitrarily long
sequence of per-round updates — counselor-utterance analyses with arbitrary
text, and flow-control writes whose values passed the schema's [0, 1]
bounds — every affect field (trust, openness, information revealed,
resistance, avoidance) is still within [0, 1]; since every sequence of
valid updates has only valid prefixes, the bound holds after every write. -/
theorem c6_affect_stays_bounded (s : AffectState) (updates : List AffectUpdate)
    (hs : affectInBounds s) (hv : ∀ u ∈ updates, validAffectUpdate u) :
    affectInBounds (updates.foldl applyAffectUpdate s) := by
  induction updates generalizing s with
  | nil => exact hs
  | cons u rest ih =>
    rw [List.foldl_cons]
    have hu : validAffectUpdate u := hv u (List.mem_cons_self u rest)
    have hstep : affectInBounds (applyAffectUpdate s u) := by
      cases u with
      | analyze text => exact analyze_preserves_bounds s text hs
      | flowWrite a => exact flow_write_bounds a s hu
    exact ih _ hstep (fun v hvmem => hv v (List.mem_cons_of_mem u hvmem))

/-- C6 witness: the initial affect state run through one analysis and one
flow-control write stays within bounds. -/
theorem c6_affect_stays_bounded_witness :
    affectInBounds (sampleUpdates.foldl applyAffectUpdate initialAffect) :=
  c6_affect_stays_bounded initialAffect sampleUpdates
    (by unfold affectInBounds initialAffect; norm_num)
    (by
      intro u hu
      simp only [sampleUpdates, List.mem_cons, List.not_mem_nil, or_false] at hu
      rcases hu with rfl | rfl
      · trivial
      · show analysisInBounds sampleAnalysis
        unfold analysisInBounds sampleAnalysis
        norm_num)

/-- C8: whatever utterance the model generates and whatever the fallback
pick is, the string `generate_student_response` returns either passes the
bot's own risk assessment without an emergency flag or is one of the four
fixed safer fallbacks; in particular a generated utterance flagged as
requiring emergency intervention is never returned verbatim. -/
theorem c8_student_response_gated (generated : String) (choice : Nat) :
    ((assess_risk (generate_student_response generated choice)).emergency_required
        = false ∨
      generate_student_response generated choice ∈ safe_responses) ∧
    ((assess_risk generated).emergency_required = true →
      generate_student_response generated choice ∈ safe_responses) := by
  unfold generate_student_response
  cases h : (assess_risk generated).emergency_required
  · simp [h]
  · simp only [h, if_true]
    have hlt : choice % safe_responses.length < safe_responses.length :=
      Nat.mod_lt _ (by decide)
    have hmem : safe_responses.getD (choice % safe_responses.length) ""
        ∈ safe_responses := by
      rw [List.getD_eq_getElem safe_responses "" hlt]
      exact List.getElem_mem hlt
    exact ⟨Or.inr hmem, fun _ => hmem⟩

/-- C8 witness: a generated utterance containing suicide keywords triggers
the emergency flag, and the returned string is one of the fallbacks. -/
theorem c8_student_response_gated_witness :
    (assess_risk "我想自杀，不想活了").emergency_required = true ∧
    generate_student_response "我想自杀，不想活了" 0 ∈ safe_responses :=
  ⟨by decide, (c8_student_response_gated "我想自杀，不想活了" 0).2 (by decide)⟩

/-- C10: when `is_completed` or `risk_alert` is already set,
`continue_conversation` returns `None`, leaves the whole session state —
history, round counter, counselor phase, student affect — unchanged, and
makes no external call. -/
theorem c10_completed_guard (o : MainOracle) (s : SessionState)
    (h : s.is_completed = true ∨ s.risk_alert = true) :
    continue_conversation o s = (none, s, []) := by
  unfold continue_conversation
  rcases h with h | h <;> simp [h]

/-- C10 witness: the guard applied to a completed and to a risk-flagged
session. -/
theorem c10_completed_guard_witness :
    continue_conversation quietMainOracle completedSession =
      (none, completedSession, []) ∧
    continue_conversation quietMainOracle alertedSession =
      (none, alertedSession, []) :=
  ⟨c10_completed_guard quietMainOracle completedSession (Or.inl rfl),
   c10_completed_guard quietMainOracle alertedSession (Or.inr rfl)⟩

/-- C2: the transition validator is dead code for schema-valid data, and the
session loop crashes instead of rejecting.  On the illegal back-edge
assessment → introduction written with the Chinese labels that the pydantic
`Literal` schema admits, `_validate_state_transition` cannot parse the
labels (the enum's values are English), swallows the `ValueError`, and
returns the data unchanged; `SessionManager.run` then raises `ValueError`
from `CounselorState(recommended_state)`, a fatal error.  The intended
reject-to-no-op behaviour fires only on the English enum values, which the
schema never produces. -/
theorem c2_transition_validation_dead :
    validate_state_transition chineseIllegalTransition = chineseIllegalTransition ∧
    runApplyTransition .assessment chineseIllegalTransition =
      .error "ValueError: 引入与建立关系阶段 is not a valid CounselorState" ∧
    interactive_loop illegalTransitionOracle 20 5 1 .assessment =
      .error "ValueError: 引入与建立关系阶段 is not a valid CounselorState" ∧
    validate_state_transition englishIllegalTransition =
      { englishIllegalTransition with
          need_transition := false,
          recommended_state := none,
          transition_reason := "非法状态转换：assessment 不能直接转换到 introduction",
          confidence_level := "低" } ∧
    runApplyTransition .assessment
        (validate_state_transition englishIllegalTransition) =
      .ok (.assessment, false) :=
  ⟨rfl, rfl, rfl, rfl, rfl⟩

/-- C1 counterexample: an interactive session (auto mode, `max_rounds = 2`)
whose flow-control result flags `emergency_required` from round 1 onward
still issues the round-2 student and counselor calls — `SessionManager.run`
never consults the risk vector for termination, so utterance-producing
calls do occur after the emergent round. -/
theorem c1_interactive_ignores_emergency :
    (interactiveEmergencyOracle.flowResult 1).risk_assessment.emergency_required
      = true ∧
    interactive_loop interactiveEmergencyOracle 2 3 1 .introduction =
      .ok [.counselorCall 1, .evalCall 1, .studentCall 2, .counselorCall 2,
           .evalCall 2] :=
  ⟨rfl, rfl⟩

/-- C1 (amended): in the Streamlit `ConversationSession`, once the round's
merged risk vector has `emergency_required` true, that same
`continue_conversation` call sets `risk_alert`, skips the round's counselor
call (only the student and evaluation calls happen), and every later call
returns `None` making no external call at all; the recorded completion
reason is `"risk_alert"` (not `"risk_emergency"`).  The interactive
`SessionManager.run` has no such termination (see the counterexample). -/
theorem c1_risk_emergency_amended (o : MainOracle) (s : SessionState) :
    (∀ n, s.risk_alert = true → runMain o n s = (s, [])) ∧
    (s.is_completed = false → s.risk_alert = false →
      s.current_round < MAX_CONVERSATION_ROUNDS →
      (mergedRiskAt o s).emergency_required = true →
      (continue_conversation o s).2.1.risk_alert = true ∧
      (continue_conversation o s).2.2 =
        [.studentCall (s.current_round + 1), .evalCall (s.current_round + 1)]) ∧
    (s.risk_alert = true → finalize_completion_reason s = "risk_alert") := by
  refine ⟨?_, ?_, ?_⟩
  · intro n h
    induction n with
    | zero => rfl
    | succ n ih =>
      have hstep : continue_conversation o s = (none, s, []) := by
        unfold continue_conversation
        simp [h]
      simp only [runMain, hstep, ih]
      rfl
  · intro h1 h2 h3 h4
    have hterm : should_terminate_session (mergedRiskAt o s) = true := by
      unfold should_terminate_session
      rw [h4]
      rfl
    have hstep : continue_conversation o s =
        (some (o.student (s.current_round + 1)),
         { s with current_round := s.current_round + 1,
                  conversation_history :=
                    s.conversation_history ++ [roundStudentMsg o s],
                  student_affect :=
                    studentAffectStep s.conversation_history s.student_affect,
                  risk_alert := true },
         [.studentCall (s.current_round + 1), .evalCall (s.current_round + 1)]) := by
      unfold continue_conversation
      rw [if_neg (by simp [h1, h2]), if_neg (Nat.not_le.mpr h3)]
      dsimp only
      rw [if_pos hterm]
    rw [hstep]
    exact ⟨rfl, rfl⟩
  · intro h
    unfold finalize_completion_reason
    rw [h]
    rfl

/-- C1 witness: with an evaluator flagging an emergency, the started session
sets `risk_alert` at round 2 without a counselor call, an alerted session
runs no calls at all, and its finalisation reason is `"risk_alert"`. -/
theorem c1_risk_emergency_amended_witness :
    (mergedRiskAt emergencyMainOracle startedSession).emergency_required = true ∧
    (continue_conversation emergencyMainOracle startedSession).2.1.risk_alert
      = true ∧
    (continue_conversation emergencyMainOracle startedSession).2.2 =
      [.studentCall 2, .evalCall 2] ∧
    runMain emergencyMainOracle 3 alertedSession = (alertedSession, []) ∧
    finalize_completion_reason alertedSession = "risk_alert" := by
  have hem : (mergedRiskAt emergencyMainOracle startedSession).emergency_required
      = true := by decide
  have h := c1_risk_emergency_amended emergencyMainOracle startedSession
  have halert := c1_risk_emergency_amended emergencyMainOracle alertedSession
  exact ⟨hem, (h.2.1 rfl rfl (by decide) hem).1, (h.2.1 rfl rfl (by decide) hem).2,
    halert.1 3 rfl, halert.2.2 rfl⟩

set_option maxRecDepth 10000 in
set_option maxHeartbeats 1000000 in
/-- C7 counterexample: a full auto run with an evaluator that never
recommends a transition and never reports risk does stop with the round
counter at `MAX_CONVERSATION_ROUNDS`, but the caller-visible completion
reason is `"normal_completion"` — the code has no `"max_rounds"` reason
(its only two reasons are `"risk_alert"` and `"normal_completion"`). -/
theorem c7_termination_reason_counterexample :
    (runMain quietMainOracle 51 startedSession).1.is_completed = true ∧
    (runMain quietMainOracle 51 startedSession).1.current_round =
      MAX_CONVERSATION_ROUNDS ∧
    (runMain quietMainOracle 51 startedSession).1.risk_alert = false ∧
    finalize_completion_reason (runMain quietMainOracle 51 startedSession).1 =
      "normal_completion" ∧
    "normal_completion" ≠ "max_rounds" :=
  ⟨rfl, rfl, rfl, rfl, by decide⟩

/-- C7 (amended): with no transition recommendation and no risk alarm, a
round below the cap advances the round counter by one without completing,
and a call at `current_round ≥ MAX_CONVERSATION_ROUNDS` marks the session
completed, returns `None`, and changes nothing else; the caller then
observes completion reason `"normal_completion"` — not `"max_rounds"`, and
no five-value reason set exists in the code. -/
theorem c7_max_rounds_amended (o : MainOracle) (s : SessionState)
    (h1 : s.is_completed = false) (h2 : s.risk_alert = false) :
    (MAX_CONVERSATION_ROUNDS ≤ s.current_round →
      continue_conversation o s = (none, { s with is_completed := true }, [])) ∧
    (s.current_round < MAX_CONVERSATION_ROUNDS →
      should_terminate_session (mergedRiskAt o s) = false →
      get_state_transition_recommendation
          (o.evalLLM (s.current_round + 1)).state_transition = none →
      (continue_conversation o s).1 = some (o.student (s.current_round + 1)) ∧
      (continue_conversation o s).2.1.current_round = s.current_round + 1 ∧
      (continue_conversation o s).2.1.is_completed = false ∧
      (continue_conversation o s).2.1.risk_alert = false ∧
      (continue_conversation o s).2.1.counselor_state = s.counselor_state) ∧
    finalize_completion_reason { s with is_completed := true } =
      "normal_completion" := by
  refine ⟨?_, ?_, ?_⟩
  · intro hle
    unfold continue_conversation
    rw [if_neg (by simp [h1, h2]), if_pos hle]
  · intro hlt hterm hrec
    have hstep : continue_conversation o s =
        (some (o.student (s.current_round + 1)),
         { s with current_round := s.current_round + 1,
                  conversation_history :=
                    (s.conversation_history ++ [roundStudentMsg o s]) ++
                      [⟨"counselor", o.counselor (s.current_round + 1),
                        s.current_round + 1⟩],
                  student_affect :=
                    studentAffectStep s.conversation_history s.student_affect },
         [.studentCall (s.current_round + 1), .evalCall (s.current_round + 1),
          .counselorCall (s.current_round + 1)]) := by
      unfold continue_conversation
      rw [if_neg (by simp [h1, h2]), if_neg (Nat.not_le.mpr hlt)]
      dsimp only
      rw [if_neg (by simp [hterm]), hrec]
    rw [hstep]
    exact ⟨rfl, rfl, h1, h2, rfl⟩
  · unfold finalize_completion_reason
    dsimp only
    rw [h2]
    rfl

/-- C7 witness: the quiet oracle run from round 1 advances to round 2, a
session already at round 50 is marked completed unchanged, and the
finalisation reason is `"normal_completion"`. -/
theorem c7_max_rounds_amended_witness :
    continue_conversation quietMainOracle
        { startedSession with current_round := 50 } =
      (none, { startedSession with current_round := 50, is_completed := true },
       []) ∧
    (continue_conversation quietMainOracle startedSession).2.1.current_round
      = 2 ∧
    finalize_completion_reason { startedSession with is_completed := true } =
      "normal_completion" := by
  have hcap := c7_max_rounds_amended quietMainOracle
    { startedSession with current_round := 50 } rfl rfl
  have hrun := c7_max_rounds_amended quietMainOracle startedSession rfl rfl
  exact ⟨hcap.1 (by decide),
    (hrun.2.1 (by decide) (by decide) (by decide)).2.1, hrun.2.2⟩
